import Mathlib

/-!
Shallow embedding of the Mumbai train simulation core (SIH prototype).

Times are in seconds after midnight (the JS code parses `HH:MM:SS` strings
with `timeToSeconds` / manual `split(':')` arithmetic before doing any
comparison, so the embedding works directly on the parsed second counts).
Coordinates and speeds are embedded as rationals; the JS number operations
used by the interpolators are `+ - * /`, `Math.floor` and `Math.min`, which
are modelled exactly by `ℚ` arithmetic, `Int.floor` and `min`.
-/

attribute [local semireducible] Rat.add Rat.sub Rat.mul Rat.inv

namespace MumbaiSim

/-- A station record as held in a train's `stations` array:
`{ name, lat, lon, arrival }`, with `arrival` the parsed value
`timeToSeconds(station.arrival)` of the `HH:MM:SS` string. -/
structure Station where
  name : String
  lat : ℚ
  lon : ℚ
  arrival : ℤ
  deriving Repr, DecidableEq, Inhabited

/-- One waypoint of a train's `route_geometry` array: `{ lat, lon }`. -/
structure GeoPoint where
  lat : ℚ
  lon : ℚ
  deriving Repr, DecidableEq, Inhabited

/-- A train schedule record (`mumbaiTrains.json` entry / OSRD mock train).
`departure_seconds` is the parsed value `depHours*3600 + depMinutes*60`
that both `interpolateTrainPosition` and the `/api/trains/current` handler
compute from `departure_time.split(':')` (seconds are ignored there). -/
structure Train where
  train_id : String
  train_name : String
  departure_seconds : ℤ
  speed_kmph : ℚ
  route_geometry : List GeoPoint
  stations : List Station
  deriving Repr, DecidableEq, Inhabited

/-- Train status values emitted by the position computations. -/
inductive TrainStatus where
  | waiting
  | running
  | completed
  deriving Repr, DecidableEq, Inhabited

/-- A computed train position sample: `{ lat, lon, speed, status,
next_station, progress }`.  `progress` is `none` where the JS object
carries no `progress` field (the waiting/completed branches of
`interpolateTrainPosition` and both `interpolateByStations` fallbacks). -/
structure PositionSample where
  lat : ℚ
  lon : ℚ
  speed : ℚ
  status : TrainStatus
  next_station : String
  progress : Option ℚ
  deriving Repr, DecidableEq, Inhabited

/-- JS `x || 40` applied to a numeric speed: `0` is falsy and is replaced
by the default `40` (`train.speed_kmph || 40`). -/
def jsOr40 (s : ℚ) : ℚ :=
  if s = 0 then 40 else s

/-- `findNextStation(train, progress)` from `osrdMockAPI.js`: maps
`progress` onto the stations array proportionally. -/
def findNextStation (train : Train) (progress : ℚ) : String :=
  let totalStations : ℤ := train.stations.length
  let stationIndex : ℤ := Rat.floor (progress * (totalStations : ℚ))
  if stationIndex ≥ totalStations - 1 then
    ((train.stations.getLast?).map Station.name).getD ""
  else
    ((train.stations.get? (stationIndex + 1).toNat).map Station.name).getD ""

/-- The `for` loop of `interpolateByStations`: scan consecutive station
pairs in order and return the first pair whose arrival times bracket the
query time (`currentStationTime ≤ t ∧ t ≤ nextStationTime`). -/
def findSegment : List Station → ℤ → Option (Station × Station)
  | s0 :: s1 :: rest, t =>
    if s0.arrival ≤ t ∧ t ≤ s1.arrival then some (s0, s1)
    else findSegment (s1 :: rest) t
  | _, _ => none

/-- `interpolateByStations(train, currentTimeSeconds)` from
`osrdMockAPI.js`: station-keyframe fallback used when `route_geometry` is
empty.  Returns `none` exactly where the JS code would throw a `TypeError`
(`stations[0]` on an empty stations array). -/
def interpolateByStations (train : Train) (t : ℤ) : Option PositionSample :=
  match findSegment train.stations t with
  | some (currentStation, nextStation) =>
    let progress : ℚ :=
      ((t - currentStation.arrival : ℤ) : ℚ) /
        ((nextStation.arrival - currentStation.arrival : ℤ) : ℚ)
    some
      { lat := currentStation.lat + (nextStation.lat - currentStation.lat) * progress
        lon := currentStation.lon + (nextStation.lon - currentStation.lon) * progress
        speed := jsOr40 train.speed_kmph
        status := .running
        next_station := nextStation.name
        progress := none }
  | none =>
    match train.stations.head?, train.stations.getLast? with
    | some s0, some sLast =>
      if t < s0.arrival then
        some
          { lat := s0.lat, lon := s0.lon, speed := 0, status := .waiting
            next_station := s0.name, progress := none }
      else
        some
          { lat := sLast.lat, lon := sLast.lon, speed := 0, status := .completed
            next_station := sLast.name, progress := none }
    | _, _ => none

/-- `interpolateTrainPosition(train, currentTimeSeconds)` from
`osrdMockAPI.js`.  Dispatches to `interpolateByStations` when
`route_geometry` is empty; otherwise interpolates along the route
geometry proportionally to elapsed journey time.  Returns `none` exactly
where the JS code would throw (`stations[stations.length-1]` on an empty
stations array). -/
def interpolateTrainPosition (train : Train) (t : ℤ) : Option PositionSample :=
  if train.route_geometry.isEmpty then interpolateByStations train t
  else
    match train.stations.getLast?, train.stations.head? with
    | some lastStation, some firstStation =>
      let departureSeconds := train.departure_seconds
      let arrivalSeconds := lastStation.arrival
      let totalJourneyTime := arrivalSeconds - departureSeconds
      let elapsed := t - departureSeconds
      if elapsed < 0 then
        let g0 := train.route_geometry.headD default
        some
          { lat := g0.lat, lon := g0.lon, speed := 0, status := .waiting
            next_station := firstStation.name, progress := none }
      else if elapsed ≥ totalJourneyTime then
        let lastPoint := train.route_geometry.getLastD default
        some
          { lat := lastPoint.lat, lon := lastPoint.lon, speed := 0, status := .completed
            next_station := lastStation.name, progress := none }
      else
        let geom := train.route_geometry
        let progress : ℚ := (elapsed : ℚ) / (totalJourneyTime : ℚ)
        let totalPoints : ℤ := geom.length
        let exactPosition : ℚ := progress * ((totalPoints : ℚ) - 1)
        let currentIndex : ℤ := Rat.floor exactPosition
        let nextIndex : ℤ := min (currentIndex + 1) (totalPoints - 1)
        let segmentProgress : ℚ := exactPosition - (currentIndex : ℚ)
        let currentPoint := geom.getD currentIndex.toNat default
        let nextPoint := geom.getD nextIndex.toNat default
        some
          { lat := currentPoint.lat + (nextPoint.lat - currentPoint.lat) * segmentProgress
            lon := currentPoint.lon + (nextPoint.lon - currentPoint.lon) * segmentProgress
            speed := jsOr40 train.speed_kmph
            status := .running
            next_station := findNextStation train progress
            progress := some progress }
    | _, _ => none

/-- The sample computed per train by the `GET /api/trains/current` handler
in `index.js` (the object fields the position logic produces: `lat`,
`lon`, `speed`, `status`, `progress`). -/
structure LiveTrainSample where
  lat : ℚ
  lon : ℚ
  speed : ℚ
  status : TrainStatus
  progress : ℚ
  deriving Repr, DecidableEq, Inhabited

/-- Per-train position computation of the `GET /api/trains/current`
handler (`index.js`): clamp elapsed at `0`, use a fixed `journeyDuration`
of 3600 s, `progress = min(elapsed / 3600, 1)`, interpolate along
`route_geometry`, then set status by `running` / `elapsed === 0 →
waiting` / `progress ≥ 1 → completed` (in that JS overwrite order) and
report speed only while running.  `none` models the `TypeError` the JS
throws on an empty `route_geometry`. -/
def currentTrainsSample (train : Train) (currentTimeSeconds : ℤ) : Option LiveTrainSample :=
  let departureSeconds := train.departure_seconds
  let elapsedRaw := currentTimeSeconds - departureSeconds
  let elapsed := if elapsedRaw < 0 then 0 else elapsedRaw
  let totalRoutePoints : ℤ := train.route_geometry.length
  let journeyDuration : ℤ := 3600
  let progress : ℚ := min ((elapsed : ℚ) / (journeyDuration : ℚ)) 1
  let routeIndex : ℤ := Rat.floor (progress * ((totalRoutePoints : ℚ) - 1))
  let nextIndex : ℤ := min (routeIndex + 1) (totalRoutePoints - 1)
  let segmentProgress : ℚ := progress * ((totalRoutePoints : ℚ) - 1) - (routeIndex : ℚ)
  match train.route_geometry.get? routeIndex.toNat, train.route_geometry.get? nextIndex.toNat with
  | some currentPoint, some nextPoint =>
    let status : TrainStatus :=
      if progress ≥ 1 then .completed
      else if elapsed = 0 then .waiting
      else .running
    some
      { lat := currentPoint.lat + (nextPoint.lat - currentPoint.lat) * segmentProgress
        lon := currentPoint.lon + (nextPoint.lon - currentPoint.lon) * segmentProgress
        speed := if status = .running then train.speed_kmph else 0
        status := status
        progress := progress }
  | _, _ => none

/-- JS `String.padStart(2, '0')` on a decimal rendering. -/
def padTwo (s : String) : String :=
  if s.length ≥ 2 then s else if s.length = 1 then "0" ++ s else "00"

/-- `formatTime(seconds)` from `osrdService.js`: `HH:MM:SS` rendering. -/
def formatTime (seconds : ℕ) : String :=
  let hours := seconds / 3600
  let minutes := (seconds % 3600) / 60
  let secs := seconds % 60
  padTwo (toString hours) ++ ":" ++ padTwo (toString minutes) ++ ":" ++ padTwo (toString secs)

/-- One entry of the `positions` array generated by `mockSimulation`. -/
structure MockPositionSample where
  time : String
  lat : ℚ
  lon : ℚ
  speed : ℚ
  status : TrainStatus
  deriving Repr, DecidableEq, Inhabited

/-- Per-train result object generated by `mockSimulation`. -/
structure MockTrainResult where
  train_id : String
  train_name : String
  positions : List MockPositionSample
  route_geometry : List GeoPoint
  stations : List Station
  deriving Repr, DecidableEq, Inhabited

/-- The value returned by `mockSimulation`. -/
structure MockSimResult where
  success : Bool
  simulationId : String
  trains : List MockTrainResult
  deriving Repr, DecidableEq, Inhabited

/-- The per-train body of the `trains.map` in `mockSimulation`
(`osrdService.js`): samples every 30 s across an 8-hour horizon, linearly
between the first and last `route_geometry` points.  `none` models the
`TypeError` the JS throws when `route_geometry` is missing or empty
(`train.route_geometry[0].lat`). -/
def mockTrainResult (train : Train) : Option MockTrainResult :=
  let totalTime : ℕ := 8 * 60 * 60
  let timeStep : ℕ := 30
  match train.route_geometry.head?, train.route_geometry.getLast? with
  | some startCoord, some endCoord =>
    some
      { train_id := train.train_id
        train_name := train.train_name
        positions :=
          (List.range (totalTime / timeStep + 1)).map fun k =>
            let time := timeStep * k
            let progress : ℚ := (time : ℚ) / (totalTime : ℚ)
            { time := formatTime time
              lat := startCoord.lat + (endCoord.lat - startCoord.lat) * progress
              lon := startCoord.lon + (endCoord.lon - startCoord.lon) * progress
              speed := jsOr40 train.speed_kmph
              status := if progress ≥ 1 then .completed else .running }
        route_geometry := train.route_geometry
        stations := train.stations }
  | _, _ => none

/-- `mockSimulation(trains)` from `osrdService.js`.  `nowMs` stands for
`Date.now()` (it only feeds the generated simulation id).  `none` models
a thrown `TypeError` from any per-train body. -/
def mockSimulation (nowMs : ℕ) (trains : List Train) : Option MockSimResult :=
  (trains.mapM mockTrainResult).map fun simulationResults =>
    { success := true
      simulationId := "mock_" ++ toString nowMs
      trains := simulationResults }

/-- The payload of a successful backend `runSimulation` call; the
orchestrator returns it verbatim, so it stays opaque here. -/
structure BackendRunResult where
  payload : String
  deriving Repr, DecidableEq, Inhabited

/-- The OSRD backend client as observed by `simulateMumbaiTrains`:
`healthCheck` never throws and reports `healthy`; `createSimulation` and
`runSimulation` either return or throw (`Except.error`). -/
structure Backend where
  healthy : Bool
  createSimulation : List Train → Except String String
  runSimulation : String → Except String BackendRunResult

/-- What `simulateMumbaiTrains` hands back to its caller: the backend's
own run result, or the mock generator's result. -/
inductive SimulationOutcome where
  | backend (results : BackendRunResult)
  | mock (m : MockSimResult)
  deriving Repr, DecidableEq

/-- `simulateMumbaiTrains(mumbaiTrains)` from `osrdService.js`: probe
health; if healthy create and run a backend simulation and return its
results; if unhealthy run `mockSimulation`; any exception inside the
`try` block is caught and answered with `mockSimulation` — whose own
`TypeError` (empty route geometry) would propagate (`none`). -/
def simulateMumbaiTrains (b : Backend) (nowMs : ℕ) (mumbaiTrains : List Train) :
    Option SimulationOutcome :=
  let tryBlock : Except String SimulationOutcome :=
    if b.healthy then do
      let simulationId ← b.createSimulation mumbaiTrains
      let results ← b.runSimulation simulationId
      pure (.backend results)
    else
      match mockSimulation nowMs mumbaiTrains with
      | some m => pure (.mock m)
      | none => throw "TypeError: route_geometry"
  match tryBlock with
  | .ok r => some r
  | .error _ =>
    match mockSimulation nowMs mumbaiTrains with
    | some m => some (.mock m)
    | none => none

/-- A GeoJSON track feature as consumed by `findNearestTrack` (`snap.js`):
its `geometry.type` tag and its coordinate list (lon, lat pairs). -/
structure TrackFeature where
  geomType : String
  coords : List (ℚ × ℚ)
  deriving Repr, DecidableEq, Inhabited

/-- The loop body of `findNearestTrack`: skip non-`LineString` features;
otherwise compute the snap distance via `turf.nearestPointOnLine` (the
abstract parameter `nd`, in meters), and replace the running best when
`distance/1000 ≤ maxDistanceKm` and the distance strictly undercuts the
current minimum (initially `Infinity`, i.e. `none`). -/
def nearTrackStep (nd : List (ℚ × ℚ) → ℚ × ℚ → ℚ) (point : ℚ × ℚ)
    (maxDistanceKm : ℚ) (best : Option (TrackFeature × ℚ)) (feature : TrackFeature) :
    Option (TrackFeature × ℚ) :=
  if feature.geomType ≠ "LineString" then best
  else
    let distance := nd feature.coords point
    let distanceKm := distance / 1000
    match best with
    | none => if distanceKm ≤ maxDistanceKm then some (feature, distance) else none
    | some (bestFeature, minDistance) =>
      if distanceKm ≤ maxDistanceKm ∧ distance < minDistance then some (feature, distance)
      else some (bestFeature, minDistance)

/-- `findNearestTrack(trainPointLonLat, railwayFeatures, maxDistanceKm)`
from `snap.js`, parametrised by the external snap-distance function `nd`
(`turf.nearestPointOnLine(...).properties.dist`, meters).  Returns the
best track together with its recorded snap distance, or `none`. -/
def findNearestTrack (nd : List (ℚ × ℚ) → ℚ × ℚ → ℚ) (point : ℚ × ℚ)
    (railwayFeatures : List TrackFeature) (maxDistanceKm : ℚ) :
    Option (TrackFeature × ℚ) :=
  railwayFeatures.foldl (nearTrackStep nd point maxDistanceKm) none

/-- `findNearestTrack` with its declared default `maxDistanceKm = 1`
(1 kilometer = 1000 meters). -/
def findNearestTrackDefault (nd : List (ℚ × ℚ) → ℚ × ℚ → ℚ) (point : ℚ × ℚ)
    (railwayFeatures : List TrackFeature) : Option (TrackFeature × ℚ) :=
  findNearestTrack nd point railwayFeatures 1

/-- A raw feature as produced by `osmtogeojson` in `osm.js`: geometry
type tag and whether a `railway` property is present (truthy). -/
structure OsmFeature where
  geomType : String
  railway : Bool
  coords : List (ℚ × ℚ)
  deriving Repr, DecidableEq, Inhabited

/-- The FeatureCollection value `fetchRailwayTracks` returns: filtered
features, `trackCount` metadata and the optional `error` field set only
on the failure path. -/
structure RailwayData where
  features : List OsmFeature
  trackCount : ℕ
  error : Option String
  deriving Repr, DecidableEq, Inhabited

/-- The bounding-box cache of `osm.js` (`NodeCache` keyed by
`railway_${south}_${west}_${north}_${east}`): an association list keyed
by the bounding-box 4-tuple. -/
def OsmCache : Type := List ((ℚ × ℚ × ℚ × ℚ) × RailwayData)

/-- Key lookup in the bounding-box cache (`cache.get(cacheKey)`). -/
def cacheGet (cache : OsmCache) (key : ℚ × ℚ × ℚ × ℚ) : Option RailwayData :=
  (cache.find? fun kv => kv.1 = key).map Prod.snd

/-- `fetchRailwayTracks(south, west, north, east)` from `osm.js`, with
the Overpass round-trip (axios post + `osmtogeojson`) abstracted as
`upstream`.  Returns the response value together with the cache state
after the call: a hit short-circuits; a successful fetch filters to
railway `LineString` features and stores the result; a failed fetch
returns the empty error collection and leaves the cache untouched. -/
def fetchRailwayTracks (upstream : ℚ → ℚ → ℚ → ℚ → Except String (List OsmFeature))
    (cache : OsmCache) (south west north east : ℚ) : RailwayData × OsmCache :=
  let cacheKey := (south, west, north, east)
  match cacheGet cache cacheKey with
  | some cachedData => (cachedData, cache)
  | none =>
    match upstream south west north east with
    | .ok rawFeatures =>
      let features := rawFeatures.filter fun f => f.geomType = "LineString" ∧ f.railway
      let railwayTracks : RailwayData :=
        { features := features, trackCount := features.length, error := none }
      (railwayTracks, (cacheKey, railwayTracks) :: cache)
    | .error _ =>
      ({ features := [], trackCount := 0, error := some "Failed to fetch railway data" },
        cache)

/-- The top-level module bindings of `server/src/index.js` (requires and
`const` declarations), used to model JS identifier resolution: an
identifier not in this list evaluates to a thrown `ReferenceError`. -/
def indexTopLevelBindings : List String :=
  ["express", "cors", "fetchRailwayTracks", "getMumbaiRailwayTracks", "clearCache",
   "getCacheStats", "snapTrainToTracks", "snapMultipleTrains",
   "generateSampleTrainPositions", "OSRDService", "OSRDMockAPI", "fs", "path",
   "app", "PORT", "osrdMockAPI", "osrdService", "mumbaiTrainsData"]

/-- The JSON body shape produced by the
`GET /api/osrd/simulation/current` handler: HTTP status plus the
`success` flag and `error` message of the body. -/
structure SimCurrentResponse where
  httpStatus : ℕ
  success : Bool
  error : Option String
  deriving Repr, DecidableEq, Inhabited

/-- The `GET /api/osrd/simulation/current` handler of `index.js`.
`getState` abstracts `osrdService.getSimulationState` (throws =
`Except.error`); `simulate` abstracts what
`osrdService.simulateMumbaiTrains(...)` would return were it reached.
When no simulation id is stored, the recreation branch evaluates the
identifier `mumbaiTrains`; if that name is unbound at module level the
evaluation throws a `ReferenceError`, which the `catch` turns into the
500 `{success: false}` response. -/
def osrdSimulationCurrentHandler (getState : String → Except String (List PositionSample))
    (simulate : Except String String) (currentSimulationId : Option String) :
    SimCurrentResponse :=
  let tryBlock : Except String String := do
    let sid ← match currentSimulationId with
      | some sid => pure sid
      | none =>
        if "mumbaiTrains" ∈ indexTopLevelBindings then simulate
        else throw "ReferenceError: mumbaiTrains is not defined"
    let _ ← getState sid
    pure sid
  match tryBlock with
  | .ok _ => { httpStatus := 200, success := true, error := none }
  | .error e => { httpStatus := 500, success := false, error := some e }

/-- A concrete snap-distance oracle for witnesses: 500 m to every track. -/
def constDist500 : List (ℚ × ℚ) → ℚ × ℚ → ℚ := fun _ _ => 500

/-- A concrete LineString track feature. -/
def witnessTrackA : TrackFeature :=
  { geomType := "LineString", coords := [(728/10, 19), (729/10, 191/10)] }

/-- A second concrete LineString track feature, same snap distance. -/
def witnessTrackB : TrackFeature :=
  { geomType := "LineString", coords := [(73, 19), (73, 20)] }

/-- A concrete always-failing Overpass upstream for witnesses. -/
def witUpstreamFail : ℚ → ℚ → ℚ → ℚ → Except String (List OsmFeature) :=
  fun _ _ _ _ => .error "connect ETIMEDOUT"

/-- A concrete raw OSM feature: a railway LineString. -/
def witOsmFeature : OsmFeature :=
  { geomType := "LineString", railway := true, coords := [(728/10, 19), (729/10, 191/10)] }

/-- A concrete succeeding Overpass upstream for witnesses. -/
def witUpstreamOk : ℚ → ℚ → ℚ → ℚ → Except String (List OsmFeature) :=
  fun _ _ _ _ => .ok [witOsmFeature]

/-- A schedule whose `route_geometry` is empty (the data model allows
this: the station fallback exists precisely for that shape). -/
def emptyGeomTrain : Train :=
  { train_id := "WR_9001", train_name := "Churchgate Local", departure_seconds := 32400,
    speed_kmph := 60, route_geometry := [],
    stations := [{ name := "Churchgate", lat := 189338/10000, lon := 728260/10000,
                   arrival := 32400 }] }

/-- A backend that is down at every stage. -/
def downBackend : Backend :=
  { healthy := false, createSimulation := fun _ => .error "connect ECONNREFUSED",
    runSimulation := fun _ => .error "connect ECONNREFUSED" }

/-- A well-formed concrete schedule used by several witnesses. -/
def witTrain : Train :=
  { train_id := "WR_9001", train_name := "Churchgate Local", departure_seconds := 32400,
    speed_kmph := 60,
    route_geometry := [{ lat := 19, lon := 728/10 }, { lat := 191/10, lon := 729/10 }],
    stations := [{ name := "Churchgate", lat := 19, lon := 728/10, arrival := 32400 },
                 { name := "Borivali", lat := 191/10, lon := 729/10, arrival := 36000 }] }

/-- The waiting sample `interpolateTrainPosition` produces for
`witTrain` before departure. -/
def witWaitingSample : PositionSample :=
  { lat := 19, lon := 728/10, speed := 0, status := .waiting,
    next_station := "Churchgate", progress := none }

/-- A two-point schedule fed to the mock generator counterexample. -/
def mockCexTrain : Train :=
  { train_id := "CR_9101", train_name := "CSMT Fast", departure_seconds := 32400,
    speed_kmph := 60, route_geometry := [{ lat := 0, lon := 0 }, { lat := 1, lon := 1 }],
    stations := [] }


/-- A schedule with no route geometry, exercising the station fallback. -/
def stationOnlyTrain : Train :=
  { train_id := "HR_9201", train_name := "Vashi Local", departure_seconds := 32400,
    speed_kmph := 50, route_geometry := [],
    stations := [{ name := "CSMT", lat := 189398/10000, lon := 728355/10000,
                   arrival := 32400 },
                 { name := "Vashi", lat := 190790/10000, lon := 730022/10000,
                   arrival := 36000 }] }

/-! ## Track locator lemmas -/

/-- One step of the `findNearestTrack` loop either keeps the running
best, or (the feature is an in-threshold LineString strictly closer than
the running minimum) replaces it with the feature and its distance. -/
theorem nearTrackStep_eq_or (nd : List (ℚ × ℚ) → ℚ × ℚ → ℚ) (point : ℚ × ℚ)
    (maxDistanceKm : ℚ) (best : Option (TrackFeature × ℚ)) (f : TrackFeature) :
    (nearTrackStep nd point maxDistanceKm best f = best ∧
      ¬(f.geomType = "LineString" ∧ nd f.coords point / 1000 ≤ maxDistanceKm ∧
        ∀ g d, best = some (g, d) → nd f.coords point < d)) ∨
    (f.geomType = "LineString" ∧ nd f.coords point / 1000 ≤ maxDistanceKm ∧
      nearTrackStep nd point maxDistanceKm best f = some (f, nd f.coords point) ∧
      ∀ g d, best = some (g, d) → nd f.coords point < d) := by
  by_cases hL : f.geomType ≠ "LineString"
  · left
    refine ⟨by simp only [nearTrackStep, if_pos hL], ?_⟩
    intro ⟨hLf, _, _⟩
    exact hL hLf
  · rcases best with _ | ⟨bf, bd⟩
    · by_cases hth : nd f.coords point / 1000 ≤ maxDistanceKm
      · right
        refine ⟨not_not.mp hL, hth, ?_, ?_⟩
        · simp only [nearTrackStep, if_neg hL, if_pos hth]
        · intro g d h; cases h
      · left
        refine ⟨by simp only [nearTrackStep, if_neg hL, if_neg hth], ?_⟩
        intro ⟨_, hth', _⟩
        exact hth hth'
    · by_cases hc : nd f.coords point / 1000 ≤ maxDistanceKm ∧ nd f.coords point < bd
      · right
        refine ⟨not_not.mp hL, hc.1, ?_, ?_⟩
        · simp only [nearTrackStep, if_neg hL, if_pos hc]
        · intro g d h
          simp only [Option.some.injEq, Prod.mk.injEq] at h
          obtain ⟨rfl, rfl⟩ := h
          exact hc.2
      · left
        refine ⟨by simp only [nearTrackStep, if_neg hL, if_neg hc], ?_⟩
        intro ⟨_, hth', hall⟩
        exact hc ⟨hth', hall bf bd rfl⟩

/-- Any state reached by folding `nearTrackStep` records the snap
distance of its own feature and respects the distance threshold,
provided the starting state does. -/
theorem foldl_nearTrackStep_inv (nd : List (ℚ × ℚ) → ℚ × ℚ → ℚ) (point : ℚ × ℚ)
    (maxDistanceKm : ℚ) :
    ∀ (features : List TrackFeature) (best : Option (TrackFeature × ℚ)),
      (∀ g d, best = some (g, d) → d = nd g.coords point ∧ d / 1000 ≤ maxDistanceKm) →
      ∀ g d, features.foldl (nearTrackStep nd point maxDistanceKm) best = some (g, d) →
        d = nd g.coords point ∧ d / 1000 ≤ maxDistanceKm := by
  intro features
  induction features with
  | nil => intro best hbest g d h; exact hbest g d h
  | cons f rest ih =>
    intro best hbest g d h
    rw [List.foldl_cons] at h
    refine ih (nearTrackStep nd point maxDistanceKm best f) ?_ g d h
    intro g' d' hstep
    rcases nearTrackStep_eq_or nd point maxDistanceKm best f with ⟨heq, _⟩ | ⟨_, hth, heq, _⟩
    · exact hbest g' d' (heq ▸ hstep)
    · rw [heq] at hstep
      simp only [Option.some.injEq, Prod.mk.injEq] at hstep
      obtain ⟨rfl, rfl⟩ := hstep
      exact ⟨rfl, hth⟩

/-- C5: `findNearestTrack(P, T, d)` returns only tracks whose snap
distance is within the threshold: a `some (track, dist)` result records
the track's own snap distance and satisfies `dist/1000 ≤ maxDistanceKm`
(so a track farther than the threshold is never returned), and the
unspecified-threshold variant uses `maxDistanceKm = 1`, i.e. 1000 m. -/
theorem findNearestTrack_within_threshold (nd : List (ℚ × ℚ) → ℚ × ℚ → ℚ)
    (point : ℚ × ℚ) (railwayFeatures : List TrackFeature) (maxDistanceKm : ℚ)
    (track : TrackFeature) (dist : ℚ)
    (h : findNearestTrack nd point railwayFeatures maxDistanceKm = some (track, dist)) :
    dist = nd track.coords point ∧ dist / 1000 ≤ maxDistanceKm ∧
      findNearestTrackDefault nd point railwayFeatures =
        findNearestTrack nd point railwayFeatures 1 := by
  have := foldl_nearTrackStep_inv nd point maxDistanceKm railwayFeatures none
    (by intro g d hgd; cases hgd) track dist h
  exact ⟨this.1, this.2, rfl⟩

/-- C5 witness: the theorem applied at a concrete query. -/
theorem findNearestTrack_within_threshold_witness :
    (500 : ℚ) = constDist500 witnessTrackA.coords (728/10, 19) ∧
      (500 : ℚ) / 1000 ≤ 1 ∧
      findNearestTrackDefault constDist500 (728/10, 19) [witnessTrackA] =
        findNearestTrack constDist500 (728/10, 19) [witnessTrackA] 1 :=
  findNearestTrack_within_threshold constDist500 (728/10, 19) [witnessTrackA] 1
    witnessTrackA 500 (by decide)

/-- Folding `nearTrackStep` over features whose snap distance is at
least the held minimum (ties included) leaves the held best unchanged:
the strict `distance < minDistance` test rejects them. -/
theorem foldl_nearTrackStep_keeps (nd : List (ℚ × ℚ) → ℚ × ℚ → ℚ) (point : ℚ × ℚ)
    (maxDistanceKm : ℚ) (g : TrackFeature) (d0 : ℚ) :
    ∀ (post : List TrackFeature),
      (∀ f ∈ post, f.geomType = "LineString" → d0 ≤ nd f.coords point) →
      post.foldl (nearTrackStep nd point maxDistanceKm) (some (g, d0)) = some (g, d0) := by
  intro post
  induction post with
  | nil => intro _; rfl
  | cons f rest ih =>
    intro hpost
    have hstep : nearTrackStep nd point maxDistanceKm (some (g, d0)) f = some (g, d0) := by
      rcases nearTrackStep_eq_or nd point maxDistanceKm (some (g, d0)) f with
        ⟨heq, _⟩ | ⟨hLf, _, _, hcloser⟩
      · exact heq
      · have hge : d0 ≤ nd f.coords point := hpost f (List.mem_cons_self f rest) hLf
        exact absurd (hcloser g d0 rfl) (not_lt.mpr hge)
    rw [List.foldl_cons, hstep]
    exact ih fun f' hf' => hpost f' (List.mem_cons_of_mem f hf')

/-- Folding `nearTrackStep` over features that are each either
non-LineString, beyond the threshold, or strictly farther than `d0`
yields a state that is `none` or holds a distance strictly above `d0`. -/
theorem foldl_nearTrackStep_pre (nd : List (ℚ × ℚ) → ℚ × ℚ → ℚ) (point : ℚ × ℚ)
    (maxDistanceKm : ℚ) (d0 : ℚ) :
    ∀ (pre : List TrackFeature) (best : Option (TrackFeature × ℚ)),
      (∀ g dg, best = some (g, dg) → d0 < dg) →
      (∀ f ∈ pre, f.geomType = "LineString" → nd f.coords point / 1000 ≤ maxDistanceKm →
        d0 < nd f.coords point) →
      ∀ g dg, pre.foldl (nearTrackStep nd point maxDistanceKm) best = some (g, dg) →
        d0 < dg := by
  intro pre
  induction pre with
  | nil => intro best hbest _ g dg h; exact hbest g dg h
  | cons f rest ih =>
    intro best hbest hpre g dg h
    rw [List.foldl_cons] at h
    refine ih (nearTrackStep nd point maxDistanceKm best f) ?_
      (fun f' hf' => hpre f' (List.mem_cons_of_mem f hf')) g dg h
    intro g' dg' hstep
    rcases nearTrackStep_eq_or nd point maxDistanceKm best f with ⟨heq, _⟩ | ⟨hLf, hth, heq, _⟩
    · exact hbest g' dg' (heq ▸ hstep)
    · rw [heq] at hstep
      simp only [Option.some.injEq, Prod.mk.injEq] at hstep
      obtain ⟨rfl, rfl⟩ := hstep
      exact hpre f (List.mem_cons_self f rest) hLf hth

/-- C8: when several tracks attain the same minimal snap distance, the
earliest in input order wins.  If `f0` is the first feature attaining
the (within-threshold) minimum — every earlier in-threshold LineString
is strictly farther, every later LineString is no closer (ties
included) — then `findNearestTrack` returns `f0` with its distance, so
the result is determined by the input ordering. -/
theorem findNearestTrack_tie_prefers_first (nd : List (ℚ × ℚ) → ℚ × ℚ → ℚ)
    (point : ℚ × ℚ) (maxDistanceKm : ℚ) (pre post : List TrackFeature)
    (f0 : TrackFeature)
    (hL : f0.geomType = "LineString")
    (hth : nd f0.coords point / 1000 ≤ maxDistanceKm)
    (hpre : ∀ f ∈ pre, f.geomType = "LineString" →
      nd f.coords point / 1000 ≤ maxDistanceKm → nd f0.coords point < nd f.coords point)
    (hpost : ∀ f ∈ post, f.geomType = "LineString" →
      nd f0.coords point ≤ nd f.coords point) :
    findNearestTrack nd point (pre ++ f0 :: post) maxDistanceKm =
      some (f0, nd f0.coords point) := by
  unfold findNearestTrack
  rw [List.foldl_append, List.foldl_cons]
  have hclose : ∀ g dg,
      pre.foldl (nearTrackStep nd point maxDistanceKm) none = some (g, dg) →
      nd f0.coords point < dg := fun g dg hgd =>
    foldl_nearTrackStep_pre nd point maxDistanceKm (nd f0.coords point) pre none
      (by intro g' dg' h'; cases h') hpre g dg hgd
  have hmid : nearTrackStep nd point maxDistanceKm
      (pre.foldl (nearTrackStep nd point maxDistanceKm) none) f0 =
      some (f0, nd f0.coords point) := by
    rcases nearTrackStep_eq_or nd point maxDistanceKm
        (pre.foldl (nearTrackStep nd point maxDistanceKm) none) f0 with
      ⟨_, hneg⟩ | ⟨_, _, heq, _⟩
    · exact absurd ⟨hL, hth, hclose⟩ hneg
    · exact heq
  rw [hmid]
  exact foldl_nearTrackStep_keeps nd point maxDistanceKm f0 (nd f0.coords point) post hpost

/-! ## Handler and cache theorems -/

/-- C9: with no stored simulation id, the recreation branch of
`GET /api/osrd/simulation/current` evaluates the identifier
`mumbaiTrains`, which is bound nowhere in `index.js`, so whatever the
backend would do the handler throws a `ReferenceError` and answers
through the 500 `{success: false}` path instead of creating a
simulation and returning train state. -/
theorem osrdSimulationCurrent_unset_id_500
    (getState : String → Except String (List PositionSample))
    (simulate : Except String String) :
    osrdSimulationCurrentHandler getState simulate none =
      { httpStatus := 500, success := false,
        error := some "ReferenceError: mumbaiTrains is not defined" } := rfl

/-- C10: when the Overpass fetch fails, `fetchRailwayTracks` answers the
empty FeatureCollection (`features = []`, `trackCount = 0`, `error`
set) without throwing and without touching the cache, so a later call
with the same bounding box consults the upstream again (here: a second
upstream that succeeds is fetched, filtered and stored). -/
theorem fetchRailwayTracks_error_not_cached
    (upstream upstream2 : ℚ → ℚ → ℚ → ℚ → Except String (List OsmFeature))
    (cache : OsmCache) (south west north east : ℚ) (msg : String)
    (feats2 : List OsmFeature)
    (hmiss : cacheGet cache (south, west, north, east) = none)
    (hfail : upstream south west north east = .error msg)
    (hok : upstream2 south west north east = .ok feats2) :
    fetchRailwayTracks upstream cache south west north east =
      ({ features := [], trackCount := 0, error := some "Failed to fetch railway data" },
        cache) ∧
    (let fs := feats2.filter fun f => f.geomType = "LineString" ∧ f.railway
     fetchRailwayTracks upstream2 cache south west north east =
       ({ features := fs, trackCount := fs.length, error := none },
         ((south, west, north, east),
           { features := fs, trackCount := fs.length, error := none }) :: cache)) := by
  refine ⟨?_, ?_⟩
  · simp only [fetchRailwayTracks, hmiss, hfail]
  · simp only [fetchRailwayTracks, hmiss, hok]

/-- C10 witness: the theorem applied to the Mumbai bounding box with an
empty cache, a failing upstream and a succeeding retry. -/
theorem fetchRailwayTracks_error_not_cached_witness :
    fetchRailwayTracks witUpstreamFail ([] : OsmCache) (189/10) (727/10) (193/10) 73 =
      ({ features := [], trackCount := 0, error := some "Failed to fetch railway data" },
        ([] : OsmCache)) ∧
    (let fs := [witOsmFeature].filter fun f => f.geomType = "LineString" ∧ f.railway
     fetchRailwayTracks witUpstreamOk ([] : OsmCache) (189/10) (727/10) (193/10) 73 =
       ({ features := fs, trackCount := fs.length, error := none },
         ((189/10, 727/10, 193/10, 73),
           { features := fs, trackCount := fs.length, error := none }) :: ([] : OsmCache))) :=
  fetchRailwayTracks_error_not_cached witUpstreamFail witUpstreamOk []
    (189/10) (727/10) (193/10) 73 "connect ETIMEDOUT" [witOsmFeature]
    rfl rfl rfl

/-- C8 witness: two tracks at the identical snap distance; the first in
input order is returned. -/
theorem findNearestTrack_tie_prefers_first_witness :
    findNearestTrack constDist500 (728/10, 19) ([] ++ witnessTrackA :: [witnessTrackB]) 1 =
      some (witnessTrackA, constDist500 witnessTrackA.coords (728/10, 19)) :=
  findNearestTrack_tie_prefers_first constDist500 (728/10, 19) 1 [] [witnessTrackB]
    witnessTrackA (by decide) (by decide)
    (by intro f hf; cases hf)
    (by intro f hf hLf; rcases List.mem_singleton.mp hf with rfl; decide)

/-! ## Mock simulation and orchestrator theorems -/

/-- `mapM` over `Option` succeeds when every element does. -/
theorem mapM_option_isSome {α β : Type} (f : α → Option β) :
    ∀ l : List α, (∀ a ∈ l, (f a).isSome) → (l.mapM f).isSome := by
  intro l
  induction l with
  | nil => intro _; rfl
  | cons a as ih =>
    intro h
    rw [List.mapM_cons]
    obtain ⟨b, hb⟩ := Option.isSome_iff_exists.mp (h a (List.mem_cons_self a as))
    obtain ⟨bs, hbs⟩ :=
      Option.isSome_iff_exists.mp (ih fun a' ha' => h a' (List.mem_cons_of_mem a ha'))
    rw [hb, hbs]
    rfl

/-- The per-train mock body succeeds on any train with route geometry. -/
theorem mockTrainResult_isSome (train : Train) (h : train.route_geometry ≠ []) :
    (mockTrainResult train).isSome := by
  rcases List.exists_cons_of_ne_nil h with ⟨g, gs, hg⟩
  have hhead : train.route_geometry.head? = some g := by rw [hg]; rfl
  have hlast : train.route_geometry.getLast?.isSome := by
    rw [hg]
    simp [List.getLast?_isSome]
  obtain ⟨gl, hgl⟩ := Option.isSome_iff_exists.mp hlast
  simp only [mockTrainResult, hhead, hgl]
  rfl

/-- `mockSimulation` succeeds whenever every schedule has a non-empty
route geometry. -/
theorem mockSimulation_isSome (nowMs : ℕ) (trains : List Train)
    (h : ∀ t ∈ trains, t.route_geometry ≠ []) : (mockSimulation nowMs trains).isSome := by
  have hm := mapM_option_isSome mockTrainResult trains
    fun a ha => mockTrainResult_isSome a (h a ha)
  obtain ⟨rs, hrs⟩ := Option.isSome_iff_exists.mp hm
  simp only [mockSimulation, hrs, Option.map_some]
  rfl

/-- C1 (amended): for every non-empty schedule list whose schedules all
carry a non-empty `routeGeometry`, `simulateMumbaiTrains` returns a
simulation result for every backend behaviour, and whenever the backend
fails at any stage (unhealthy probe, `createSimulation` throw, or
`runSimulation` throw) the result is the `mockSimulation` fallback — no
backend error reaches the caller.  (A schedule with empty
`routeGeometry` makes the fallback itself throw; see the
counterexample.) -/
theorem simulateMumbaiTrains_falls_back (b : Backend) (nowMs : ℕ)
    (mumbaiTrains : List Train) (hne : mumbaiTrains ≠ [])
    (hgeom : ∀ t ∈ mumbaiTrains, t.route_geometry ≠ []) :
    (∃ r, simulateMumbaiTrains b nowMs mumbaiTrains = some r) ∧
    ((b.healthy = false ∨ (∃ e, b.createSimulation mumbaiTrains = .error e) ∨
        (∃ sid e, b.createSimulation mumbaiTrains = .ok sid ∧
          b.runSimulation sid = .error e)) →
      ∃ m, simulateMumbaiTrains b nowMs mumbaiTrains = some (.mock m)) := by
  obtain ⟨m, hm⟩ :=
    Option.isSome_iff_exists.mp (mockSimulation_isSome nowMs mumbaiTrains hgeom)
  by_cases hh : b.healthy = true
  · cases hc : b.createSimulation mumbaiTrains with
    | error e =>
      have hres : simulateMumbaiTrains b nowMs mumbaiTrains = some (.mock m) := by
        simp only [simulateMumbaiTrains, hh, if_true, bind, Except.bind, hc, hm]
      exact ⟨⟨_, hres⟩, fun _ => ⟨m, hres⟩⟩
    | ok sid =>
      cases hr : b.runSimulation sid with
      | error e =>
        have hres : simulateMumbaiTrains b nowMs mumbaiTrains = some (.mock m) := by
          simp only [simulateMumbaiTrains, hh, if_true, bind, Except.bind, hc, hr, hm]
        exact ⟨⟨_, hres⟩, fun _ => ⟨m, hres⟩⟩
      | ok results =>
        have hres : simulateMumbaiTrains b nowMs mumbaiTrains =
            some (.backend results) := by
          simp only [simulateMumbaiTrains, hh, if_true, bind, Except.bind, hc, hr]
          rfl
        refine ⟨⟨_, hres⟩, ?_⟩
        rintro (hfalse | ⟨e, he⟩ | ⟨sid', e, hc', hr'⟩)
        · rw [hh] at hfalse; exact absurd hfalse (by decide)
        · cases he
        · obtain rfl : sid = sid' := by injection hc'
          rw [hr] at hr'; cases hr'
  · have hres : simulateMumbaiTrains b nowMs mumbaiTrains = some (.mock m) := by
      simp only [simulateMumbaiTrains, if_neg hh, hm, pure, Except.pure]
    exact ⟨⟨_, hres⟩, fun _ => ⟨m, hres⟩⟩

/-- C1 witness: the theorem applied to a down backend and one concrete
well-formed schedule. -/
theorem simulateMumbaiTrains_falls_back_witness :
    (∃ r, simulateMumbaiTrains downBackend 0 [witTrain] = some r) ∧
    ((downBackend.healthy = false ∨
        (∃ e, downBackend.createSimulation [witTrain] = .error e) ∨
        (∃ sid e, downBackend.createSimulation [witTrain] = .ok sid ∧
          downBackend.runSimulation sid = .error e)) →
      ∃ m, simulateMumbaiTrains downBackend 0 [witTrain] = some (.mock m)) :=
  simulateMumbaiTrains_falls_back downBackend 0 [witTrain] (by decide)
    (fun t ht => by rcases List.mem_singleton.mp ht with rfl; decide)

/-- C1 counterexample: a non-empty schedule list on which
`simulateMumbaiTrains` does not return a result but throws (the mock
fallback dereferences `route_geometry[0]` of a schedule whose geometry
is empty, and the catch block rethrows from the second mock call). -/
theorem simulateMumbaiTrains_empty_geometry_throws :
    ([emptyGeomTrain] ≠ ([] : List Train)) ∧
      simulateMumbaiTrains downBackend 0 [emptyGeomTrain] = none :=
  ⟨by decide, by decide⟩

/-- Helper for C6 on the station fallback: waiting/completed samples of
`interpolateByStations` have speed 0. -/
theorem interpolateByStations_nonrunning_speed (train : Train) (t : ℤ)
    (s : PositionSample) (h : interpolateByStations train t = some s)
    (hst : s.status = .waiting ∨ s.status = .completed) : s.speed = 0 := by
  unfold interpolateByStations at h
  split at h
  · simp only [Option.some.injEq] at h
    subst h
    rcases hst with h' | h' <;> simp at h'
  · split at h
    · split at h
      · simp only [Option.some.injEq] at h
        subst h
        rfl
      · simp only [Option.some.injEq] at h
        subst h
        rfl
    · cases h

/-- C6 (amended): every sample with status `waiting` or `completed`
carries speed 0 in the per-query interpolator (both the geometry path
and the station fallback) and in the `/api/trains/current` handler; the
mock horizon generator diverges from this and reports
`speed_kmph || 40` even on its completed sample (see the
counterexample). -/
theorem nonrunning_speed_zero :
    (∀ (train : Train) (t : ℤ) (s : PositionSample),
        interpolateTrainPosition train t = some s →
        s.status = .waiting ∨ s.status = .completed → s.speed = 0) ∧
    (∀ (train : Train) (t : ℤ) (s : LiveTrainSample),
        currentTrainsSample train t = some s →
        s.status = .waiting ∨ s.status = .completed → s.speed = 0) := by
  constructor
  · intro train t s h hst
    unfold interpolateTrainPosition at h
    split at h
    · exact interpolateByStations_nonrunning_speed train t s h hst
    · split at h
      · dsimp only at h
        split at h
        · simp only [Option.some.injEq] at h
          subst h
          rfl
        · split at h
          · simp only [Option.some.injEq] at h
            subst h
            rfl
          · simp only [Option.some.injEq] at h
            subst h
            rcases hst with h' | h' <;> simp at h'
      · cases h
  · intro train t s h hst
    unfold currentTrainsSample at h
    dsimp only at h
    split at h
    · simp only [Option.some.injEq] at h
      subst h
      dsimp only at hst ⊢
      rcases hst with h' | h' <;>
        exact if_neg fun hr => absurd (hr.symm.trans h') (by decide)
    · cases h

/-- C6 witness: the theorem applied to a concrete waiting sample. -/
theorem nonrunning_speed_zero_witness : witWaitingSample.speed = 0 :=
  nonrunning_speed_zero.1 witTrain 32000 witWaitingSample (by decide)
    (Or.inl (by decide))

set_option maxRecDepth 100000 in
/-- C6 counterexample: the final sample the mock horizon generator emits
(at the 8-hour mark) has status `completed` but speed `60`, not `0`. -/
theorem mockSimulation_completed_speed_nonzero :
    ((mockSimulation 0 [mockCexTrain]).map fun res =>
        res.trains.map fun tr => tr.positions.getLast?.map fun s => (s.status, s.speed)) =
      some [some (TrainStatus.completed, 60)] ∧ (60 : ℚ) ≠ 0 :=
  ⟨by decide, by decide⟩

/-- C4 counterexample: querying the `/api/trains/current` computation
exactly at the departure time (09:00:00 = 32400 s) yields status
`waiting`, not `running`: the handler sets `waiting` whenever
`elapsed === 0`, which includes the departure instant itself. -/
theorem trainsCurrent_waiting_at_departure :
    (currentTrainsSample witTrain 32400).map LiveTrainSample.status = some .waiting ∧
      (currentTrainsSample witTrain 32400).map LiveTrainSample.status ≠
        some .running :=
  ⟨by decide, by decide⟩

/-- C4 (amended): `interpolateTrainPosition` yields `running` with
progress 0 exactly at departure and `completed` (with no progress field)
at arrival; the `/api/trains/current` handler instead yields `waiting`
(progress 0) exactly at departure — its `waiting` holds precisely for
query times at or before departure — and `completed` with progress 1 at
departure + 3600 s (its fixed journey duration). -/
theorem departure_arrival_boundary_status (train : Train)
    (sLast s0 : Station)
    (hlast : train.stations.getLast? = some sLast)
    (hfirst : train.stations.head? = some s0)
    (hgeom : train.route_geometry ≠ [])
    (harr : train.departure_seconds < sLast.arrival) :
    (∃ s, interpolateTrainPosition train train.departure_seconds = some s ∧
       s.status = .running ∧ s.progress = some 0) ∧
    (∃ s, interpolateTrainPosition train sLast.arrival = some s ∧
       s.status = .completed ∧ s.progress = none) ∧
    (∃ s, currentTrainsSample train train.departure_seconds = some s ∧
       s.status = .waiting ∧ s.progress = 0) ∧
    (∀ (t : ℤ) (s : LiveTrainSample), currentTrainsSample train t = some s →
       (s.status = .waiting ↔ t ≤ train.departure_seconds)) ∧
    (∃ s, currentTrainsSample train (train.departure_seconds + 3600) = some s ∧
       s.status = .completed ∧ s.progress = 1) := by
  have he : train.route_geometry.isEmpty = false := by
    simp [List.isEmpty_iff, hgeom]
  obtain ⟨g0, gRest, hg⟩ := List.exists_cons_of_ne_nil hgeom
  refine ⟨?_, ?_, ?_, ?_, ?_⟩
  · simp only [interpolateTrainPosition, he, Bool.false_eq_true, if_false, hlast, hfirst]
    rw [if_neg (by omega : ¬train.departure_seconds - train.departure_seconds < 0),
      if_neg (by omega :
        ¬train.departure_seconds - train.departure_seconds ≥
          sLast.arrival - train.departure_seconds)]
    exact ⟨_, rfl, rfl, by simp⟩
  · simp only [interpolateTrainPosition, he, Bool.false_eq_true, if_false, hlast, hfirst]
    rw [if_neg (by omega : ¬sLast.arrival - train.departure_seconds < 0),
      if_pos (by omega :
        sLast.arrival - train.departure_seconds ≥ sLast.arrival - train.departure_seconds)]
    exact ⟨_, rfl, rfl, rfl⟩
  · unfold currentTrainsSample
    dsimp only
    rw [sub_self]
    rw [if_neg (by omega : ¬(0 : ℤ) < 0)]
    simp only [Int.cast_zero, zero_div]
    rw [min_eq_left (by norm_num : (0:ℚ) ≤ 1)]
    simp only [zero_mul]
    have hfl : Rat.floor (0 : ℚ) = 0 := by
      rw [Rat.floor_def' 0]
      decide
    rw [hfl]
    have hcp : train.route_geometry.get? (Int.toNat 0) = some g0 := by
      rw [hg]; rfl
    rw [hcp]
    have hnp : ∃ np, train.route_geometry.get?
        (min (0 + 1) ((train.route_geometry.length : ℤ) - 1)).toNat = some np := by
      rcases gRest with _ | ⟨g1, gRest'⟩
      · exact ⟨g0, by rw [hg]; rfl⟩
      · refine ⟨g1, ?_⟩
        rw [hg]
        have hlen : ((g0 :: g1 :: gRest').length : ℤ) - 1 ≥ 1 := by
          simp only [List.length_cons]
          omega
        rw [min_eq_left (by omega)]
        rfl
    obtain ⟨np, hnp⟩ := hnp
    rw [hnp]
    refine ⟨_, rfl, ?_, rfl⟩
    norm_num
  · intro t s h
    unfold currentTrainsSample at h
    dsimp only at h
    by_cases hneg : t - train.departure_seconds < 0
    · rw [if_pos hneg] at h
      simp only [Int.cast_zero, zero_div] at h
      rw [min_eq_left (by norm_num : (0:ℚ) ≤ 1)] at h
      split at h
      · simp only [Option.some.injEq] at h
        subst h
        exact iff_of_true (by norm_num) (by omega)
      · cases h
    · rw [if_neg hneg] at h
      split at h
      · simp only [Option.some.injEq] at h
        subst h
        dsimp only
        constructor
        · intro hw
          split at hw
          · exact absurd hw (by decide)
          · split at hw
            · omega
            · exact absurd hw (by decide)
        · intro hle
          have hz : t - train.departure_seconds = (0 : ℤ) := by omega
          rw [hz]
          norm_num
      · cases h
  · unfold currentTrainsSample
    dsimp only
    rw [(by omega : train.departure_seconds + 3600 - train.departure_seconds = (3600 : ℤ))]
    rw [if_neg (by omega : ¬(3600 : ℤ) < 0)]
    have h36 : ((3600 : ℤ) : ℚ) / ((3600 : ℤ) : ℚ) = 1 := by norm_num
    rw [h36, min_self, one_mul]
    have hfl : ∀ z : ℤ, Rat.floor ((z : ℚ)) = z := by
      intro z
      rw [Rat.floor_def' (z : ℚ)]
      simp [Rat.num_intCast, Rat.den_intCast]
    have hlen1 : (((train.route_geometry.length : ℤ)) : ℚ) - 1 =
        (((train.route_geometry.length : ℤ) - 1 : ℤ) : ℚ) := by push_cast; ring
    rw [hlen1, hfl]
    have hbound : 0 ≤ (train.route_geometry.length : ℤ) - 1 := by
      rw [hg]; simp only [List.length_cons]; omega
    have hcp : ∃ gl, train.route_geometry.get?
        ((train.route_geometry.length : ℤ) - 1).toNat = some gl := by
      have hlt : ((train.route_geometry.length : ℤ) - 1).toNat <
          train.route_geometry.length := by
        rw [hg]; simp only [List.length_cons]; omega
      cases hq : train.route_geometry.get? ((train.route_geometry.length : ℤ) - 1).toNat with
      | none => exact absurd (List.get?_eq_none.mp hq) (by omega)
      | some gl => exact ⟨gl, rfl⟩
    obtain ⟨gl, hgl⟩ := hcp
    rw [min_eq_right (by omega), hgl]
    refine ⟨_, rfl, ?_, rfl⟩
    rw [if_pos (by norm_num : (1:ℚ) ≥ 1)]

/-- C4 witness: the amended theorem applied to `witTrain`. -/
theorem departure_arrival_boundary_status_witness :
    (∃ s, interpolateTrainPosition witTrain witTrain.departure_seconds = some s ∧
       s.status = .running ∧ s.progress = some 0) ∧
    (∃ s, interpolateTrainPosition witTrain
        ({ name := "Borivali", lat := 191/10, lon := 729/10,
           arrival := 36000 } : Station).arrival = some s ∧
       s.status = .completed ∧ s.progress = none) ∧
    (∃ s, currentTrainsSample witTrain witTrain.departure_seconds = some s ∧
       s.status = .waiting ∧ s.progress = 0) ∧
    (∀ (t : ℤ) (s : LiveTrainSample), currentTrainsSample witTrain t = some s →
       (s.status = .waiting ↔ t ≤ witTrain.departure_seconds)) ∧
    (∃ s, currentTrainsSample witTrain (witTrain.departure_seconds + 3600) = some s ∧
       s.status = .completed ∧ s.progress = 1) :=
  departure_arrival_boundary_status witTrain
    { name := "Borivali", lat := 191/10, lon := 729/10, arrival := 36000 }
    { name := "Churchgate", lat := 19, lon := 728/10, arrival := 32400 }
    (by decide) (by decide) (by decide) (by decide)

/-- `findSegment` finds nothing when the query time precedes every
station arrival (the `currentStationTime ≤ t` half always fails). -/
theorem findSegment_eq_none_of_lt (t : ℤ) :
    ∀ stations : List Station, (∀ s ∈ stations, t < s.arrival) →
      findSegment stations t = none := by
  intro stations
  induction stations with
  | nil => intro _; rfl
  | cons s0 rest ih =>
    intro h
    cases rest with
    | nil => rfl
    | cons s1 rest' =>
      show (if s0.arrival ≤ t ∧ t ≤ s1.arrival then some (s0, s1)
        else findSegment (s1 :: rest') t) = none
      rw [if_neg]
      · exact ih fun s hs => h s (List.mem_cons_of_mem _ hs)
      · intro hc
        exact absurd (h s0 (List.mem_cons_self _ _)) (not_lt.mpr hc.1)

/-- `findSegment` finds nothing when the query time exceeds every
station arrival (the `t ≤ nextStationTime` half always fails). -/
theorem findSegment_eq_none_of_gt (t : ℤ) :
    ∀ stations : List Station, (∀ s ∈ stations, s.arrival < t) →
      findSegment stations t = none := by
  intro stations
  induction stations with
  | nil => intro _; rfl
  | cons s0 rest ih =>
    intro h
    cases rest with
    | nil => rfl
    | cons s1 rest' =>
      show (if s0.arrival ≤ t ∧ t ≤ s1.arrival then some (s0, s1)
        else findSegment (s1 :: rest') t) = none
      rw [if_neg]
      · exact ih fun s hs => h s (List.mem_cons_of_mem _ hs)
      · intro hc
        exact absurd (h s1 (List.mem_cons_of_mem _ (List.mem_cons_self _ _)))
          (not_lt.mpr hc.2)

/-- In an arrival-sorted station list, the head's arrival bounds every
member from below. -/
theorem chain_head_le : ∀ (rest : List Station) (s0 : Station),
    List.Chain' (fun a b => a.arrival < b.arrival) (s0 :: rest) →
    ∀ s ∈ s0 :: rest, s0.arrival ≤ s.arrival := by
  intro rest
  induction rest with
  | nil =>
    intro s0 _ s hs
    rcases List.mem_singleton.mp hs with rfl
    exact le_refl _
  | cons s1 rest' ih =>
    intro s0 hch s hs
    rcases List.mem_cons.mp hs with rfl | hs'
    · exact le_refl _
    · have h01 : s0.arrival < s1.arrival := (List.chain'_cons.mp hch).1
      exact le_trans (le_of_lt h01) (ih s1 (List.chain'_cons.mp hch).2 s hs')

/-- In an arrival-sorted station list, the last element's arrival bounds
every member from above. -/
theorem chain_le_getLast : ∀ (stations : List Station) (sLast : Station),
    List.Chain' (fun a b => a.arrival < b.arrival) stations →
    stations.getLast? = some sLast →
    ∀ s ∈ stations, s.arrival ≤ sLast.arrival := by
  intro stations
  induction stations with
  | nil => intro sLast _ h; cases h
  | cons s0 rest ih =>
    intro sLast hch hlast s hs
    cases rest with
    | nil =>
      obtain rfl : s0 = sLast := by
        simpa using hlast
      rcases List.mem_singleton.mp hs with rfl
      exact le_refl _
    | cons s1 rest' =>
      have hlast' : (s1 :: rest').getLast? = some sLast := by
        rw [List.getLast?_cons_cons] at hlast
        exact hlast
      rcases List.mem_cons.mp hs with rfl | hs'
      · have h01 : s.arrival < s1.arrival := (List.chain'_cons.mp hch).1
        have h1l := ih sLast (List.chain'_cons.mp hch).2 hlast' s1
          (List.mem_cons_self _ _)
        exact le_trans (le_of_lt h01) h1l
      · exact ih sLast (List.chain'_cons.mp hch).2 hlast' s hs'

/-- C3 counterexample: at exactly departure + totalJourneyDuration (the
final station's arrival, 36000 s) the station fallback emits status
`running`, not `completed` (the loop's inclusive upper bound matches the
final leg with progress 1). -/
theorem station_fallback_running_at_arrival :
    (interpolateTrainPosition stationOnlyTrain 36000).map PositionSample.status =
        some .running ∧
      (interpolateTrainPosition stationOnlyTrain 36000).map PositionSample.status ≠
        some .completed :=
  ⟨by decide, by decide⟩

/-- C3 (amended): with arrival-sorted stations whose first arrival is at
or after departure — in the geometry path, any query at or after
departure + totalJourneyDuration is `completed` exactly at the final
waypoint and any query strictly before departure is `waiting` exactly at
the first waypoint; in the station fallback the same holds with the
final/first station, except that the `completed` status requires the
query to lie strictly after the final arrival — at exact equality the
fallback reports `running` (at the final station), see the
counterexample. -/
theorem boundary_position_invariant (train : Train) (t : ℤ)
    (s0 sLast : Station)
    (hfirst : train.stations.head? = some s0)
    (hlast : train.stations.getLast? = some sLast)
    (hsorted : List.Chain' (fun a b => a.arrival < b.arrival) train.stations)
    (hdep : train.departure_seconds ≤ s0.arrival) :
    (train.route_geometry ≠ [] → sLast.arrival ≤ t →
      ∃ gl s, train.route_geometry.getLast? = some gl ∧
        interpolateTrainPosition train t = some s ∧
        s.status = .completed ∧ s.lat = gl.lat ∧ s.lon = gl.lon) ∧
    (train.route_geometry ≠ [] → t < train.departure_seconds →
      ∃ g0 s, train.route_geometry.head? = some g0 ∧
        interpolateTrainPosition train t = some s ∧
        s.status = .waiting ∧ s.lat = g0.lat ∧ s.lon = g0.lon) ∧
    (train.route_geometry = [] → sLast.arrival < t →
      ∃ s, interpolateTrainPosition train t = some s ∧
        s.status = .completed ∧ s.lat = sLast.lat ∧ s.lon = sLast.lon) ∧
    (train.route_geometry = [] → t < train.departure_seconds →
      ∃ s, interpolateTrainPosition train t = some s ∧
        s.status = .waiting ∧ s.lat = s0.lat ∧ s.lon = s0.lon) := by
  obtain ⟨rest0, hst⟩ : ∃ rest0, train.stations = s0 :: rest0 := by
    cases hs : train.stations with
    | nil => rw [hs] at hfirst; cases hfirst
    | cons a l =>
      rw [hs] at hfirst
      obtain rfl : a = s0 := by injection hfirst
      exact ⟨l, rfl⟩
  have hs0sl : s0.arrival ≤ sLast.arrival := by
    have hmem : sLast ∈ train.stations := by
      obtain ⟨hne', heq⟩ := List.mem_getLast?_eq_getLast (Option.mem_def.mpr hlast)
      rw [heq]
      exact List.getLast_mem hne'
    have hsorted2 : List.Chain' (fun a b => a.arrival < b.arrival) (s0 :: rest0) := by
      rw [← hst]; exact hsorted
    have hmem2 : sLast ∈ s0 :: rest0 := by
      rw [← hst]; exact hmem
    exact chain_head_le rest0 s0 hsorted2 sLast hmem2
  refine ⟨?_, ?_, ?_, ?_⟩
  · intro hgeom hge
    have he : train.route_geometry.isEmpty = false := by
      simp [List.isEmpty_iff, hgeom]
    obtain ⟨gl, hgl⟩ := Option.isSome_iff_exists.mp
      ((List.getLast?_isSome).mpr hgeom)
    have heq : interpolateTrainPosition train t = some
        { lat := (train.route_geometry.getLastD default).lat,
          lon := (train.route_geometry.getLastD default).lon,
          speed := 0, status := .completed,
          next_station := sLast.name, progress := none } := by
      simp only [interpolateTrainPosition, he, Bool.false_eq_true, if_false,
        hlast, hfirst]
      rw [if_neg (by omega : ¬t - train.departure_seconds < 0),
        if_pos (by omega :
          t - train.departure_seconds ≥ sLast.arrival - train.departure_seconds)]
    refine ⟨gl, _, hgl, heq, rfl, ?_, ?_⟩
    · show (train.route_geometry.getLastD default).lat = gl.lat
      rw [List.getLastD_eq_getLast?, hgl]
      rfl
    · show (train.route_geometry.getLastD default).lon = gl.lon
      rw [List.getLastD_eq_getLast?, hgl]
      rfl
  · intro hgeom hlt
    have he : train.route_geometry.isEmpty = false := by
      simp [List.isEmpty_iff, hgeom]
    obtain ⟨g0, hg0⟩ := Option.isSome_iff_exists.mp
      ((List.head?_isSome).mpr hgeom)
    have heq : interpolateTrainPosition train t = some
        { lat := (train.route_geometry.headD default).lat,
          lon := (train.route_geometry.headD default).lon,
          speed := 0, status := .waiting,
          next_station := s0.name, progress := none } := by
      simp only [interpolateTrainPosition, he, Bool.false_eq_true, if_false,
        hlast, hfirst]
      rw [if_pos (by omega : t - train.departure_seconds < 0)]
    refine ⟨g0, _, hg0, heq, rfl, ?_, ?_⟩
    · show (train.route_geometry.headD default).lat = g0.lat
      rw [List.headD_eq_head?, hg0]
      rfl
    · show (train.route_geometry.headD default).lon = g0.lon
      rw [List.headD_eq_head?, hg0]
      rfl
  · intro hgeom hgt
    have he : train.route_geometry.isEmpty = true := by
      rw [hgeom]; rfl
    have hseg : findSegment train.stations t = none := by
      refine findSegment_eq_none_of_gt t train.stations fun s hs => ?_
      exact lt_of_le_of_lt (chain_le_getLast train.stations sLast hsorted hlast s hs) hgt
    simp only [interpolateTrainPosition, he, if_true, interpolateByStations,
      hseg, hfirst, hlast]
    rw [if_neg (by omega : ¬t < s0.arrival)]
    exact ⟨_, rfl, rfl, rfl, rfl⟩
  · intro hgeom hlt
    have he : train.route_geometry.isEmpty = true := by
      rw [hgeom]; rfl
    have hseg : findSegment train.stations t = none := by
      refine findSegment_eq_none_of_lt t train.stations fun s hs => ?_
      have hsorted2 : List.Chain' (fun a b => a.arrival < b.arrival) (s0 :: rest0) := by
        rw [← hst]; exact hsorted
      have hs2 : s ∈ s0 :: rest0 := by rw [← hst]; exact hs
      have := chain_head_le rest0 s0 hsorted2 s hs2
      omega
    simp only [interpolateTrainPosition, he, if_true, interpolateByStations,
      hseg, hfirst, hlast]
    rw [if_pos (by omega : t < s0.arrival)]
    exact ⟨_, rfl, rfl, rfl, rfl⟩

/-- C3 witness: the amended theorem applied to `stationOnlyTrain` at a
time past the final arrival. -/
theorem boundary_position_invariant_witness :
    (stationOnlyTrain.route_geometry ≠ [] → (36000 : ℤ) ≤ 40000 →
      ∃ gl s, stationOnlyTrain.route_geometry.getLast? = some gl ∧
        interpolateTrainPosition stationOnlyTrain 40000 = some s ∧
        s.status = .completed ∧ s.lat = gl.lat ∧ s.lon = gl.lon) ∧
    (stationOnlyTrain.route_geometry ≠ [] → (40000 : ℤ) < 32400 →
      ∃ g0 s, stationOnlyTrain.route_geometry.head? = some g0 ∧
        interpolateTrainPosition stationOnlyTrain 40000 = some s ∧
        s.status = .waiting ∧ s.lat = g0.lat ∧ s.lon = g0.lon) ∧
    (stationOnlyTrain.route_geometry = [] → (36000 : ℤ) < 40000 →
      ∃ s, interpolateTrainPosition stationOnlyTrain 40000 = some s ∧
        s.status = .completed ∧
        s.lat = (190790/10000 : ℚ) ∧ s.lon = (730022/10000 : ℚ)) ∧
    (stationOnlyTrain.route_geometry = [] → (40000 : ℤ) < 32400 →
      ∃ s, interpolateTrainPosition stationOnlyTrain 40000 = some s ∧
        s.status = .waiting ∧
        s.lat = (189398/10000 : ℚ) ∧ s.lon = (728355/10000 : ℚ)) :=
  boundary_position_invariant stationOnlyTrain 40000
    { name := "CSMT", lat := 189398/10000, lon := 728355/10000, arrival := 32400 }
    { name := "Vashi", lat := 190790/10000, lon := 730022/10000, arrival := 36000 }
    (by decide) (by decide)
    (List.chain'_cons.mpr ⟨by decide, List.chain'_singleton _⟩) (by decide)

/-- `Rat.floor` agrees with `Int.floor` on `ℚ`. -/
theorem rat_floor_eq_floor (q : ℚ) : Rat.floor q = ⌊q⌋ :=
  (Rat.floor_def' q).trans Rat.floor_def.symm

/-- C2: for a schedule whose route geometry has at least two points,
queried strictly between departure and arrival, the interpolator
computes progress = clamp(elapsed/total, 0, 1), exactIndex =
progress · (pointCount − 1), lowerIndex = ⌊exactIndex⌋, segmentFraction
= exactIndex − lowerIndex, and returns latitude and longitude each
interpolated independently and linearly between
`routeGeometry[lowerIndex]` and
`routeGeometry[min(lowerIndex+1, pointCount−1)]` by segmentFraction. -/
theorem interpolateTrainPosition_running_formula (train : Train) (t : ℤ)
    (sLast s0 : Station)
    (hlast : train.stations.getLast? = some sLast)
    (hfirst : train.stations.head? = some s0)
    (hn : 2 ≤ train.route_geometry.length)
    (h1 : train.departure_seconds < t) (h2 : t < sLast.arrival) :
    ∃ lowerPoint upperPoint s,
      (let progress : ℚ := max 0 (min 1
         (((t - train.departure_seconds : ℤ) : ℚ) /
           ((sLast.arrival - train.departure_seconds : ℤ) : ℚ)))
       let exactIndex : ℚ := progress * ((train.route_geometry.length : ℚ) - 1)
       let lowerIndex : ℤ := ⌊exactIndex⌋
       let segmentFraction : ℚ := exactIndex - (lowerIndex : ℚ)
       train.route_geometry.get? lowerIndex.toNat = some lowerPoint ∧
       train.route_geometry.get?
         (min (lowerIndex + 1) ((train.route_geometry.length : ℤ) - 1)).toNat =
           some upperPoint ∧
       interpolateTrainPosition train t = some s ∧
       s.status = .running ∧
       s.progress = some (((t - train.departure_seconds : ℤ) : ℚ) /
         ((sLast.arrival - train.departure_seconds : ℤ) : ℚ)) ∧
       s.lat = lowerPoint.lat + (upperPoint.lat - lowerPoint.lat) * segmentFraction ∧
       s.lon = lowerPoint.lon + (upperPoint.lon - lowerPoint.lon) * segmentFraction) := by
  have hne : train.route_geometry ≠ [] := by
    intro hnil
    rw [hnil] at hn
    simp at hn
  have he : train.route_geometry.isEmpty = false := by
    simp [List.isEmpty_iff, hne]
  have hE : (0:ℚ) < ((t - train.departure_seconds : ℤ) : ℚ) := by
    exact_mod_cast (by omega : (0:ℤ) < t - train.departure_seconds)
  have hT : ((t - train.departure_seconds : ℤ) : ℚ) <
      ((sLast.arrival - train.departure_seconds : ℤ) : ℚ) := by
    exact_mod_cast (by omega :
      t - train.departure_seconds < sLast.arrival - train.departure_seconds)
  have hTpos : (0:ℚ) < ((sLast.arrival - train.departure_seconds : ℤ) : ℚ) :=
    lt_trans hE hT
  have hq0 : 0 < ((t - train.departure_seconds : ℤ) : ℚ) /
      ((sLast.arrival - train.departure_seconds : ℤ) : ℚ) := div_pos hE hTpos
  have hq1 : ((t - train.departure_seconds : ℤ) : ℚ) /
      ((sLast.arrival - train.departure_seconds : ℤ) : ℚ) < 1 :=
    (div_lt_one hTpos).mpr hT
  have hn1 : (1:ℚ) ≤ (train.route_geometry.length : ℚ) - 1 := by
    have h2n : (2:ℚ) ≤ (train.route_geometry.length : ℚ) := by exact_mod_cast hn
    linarith
  have hx0 : 0 ≤ ((t - train.departure_seconds : ℤ) : ℚ) /
      ((sLast.arrival - train.departure_seconds : ℤ) : ℚ) *
      ((train.route_geometry.length : ℚ) - 1) :=
    mul_nonneg hq0.le (by linarith)
  have hxlt : ((t - train.departure_seconds : ℤ) : ℚ) /
      ((sLast.arrival - train.departure_seconds : ℤ) : ℚ) *
      ((train.route_geometry.length : ℚ) - 1) <
      (train.route_geometry.length : ℚ) - 1 :=
    mul_lt_of_lt_one_left (by linarith) hq1
  have hfl0 : 0 ≤ ⌊((t - train.departure_seconds : ℤ) : ℚ) /
      ((sLast.arrival - train.departure_seconds : ℤ) : ℚ) *
      ((train.route_geometry.length : ℚ) - 1)⌋ := Int.floor_nonneg.mpr hx0
  have hflt : ⌊((t - train.departure_seconds : ℤ) : ℚ) /
      ((sLast.arrival - train.departure_seconds : ℤ) : ℚ) *
      ((train.route_geometry.length : ℚ) - 1)⌋ <
      (train.route_geometry.length : ℤ) - 1 := by
    rw [Int.floor_lt]
    have hc1 : (((train.route_geometry.length : ℤ) - 1 : ℤ) : ℚ) =
        (train.route_geometry.length : ℚ) - 1 := by push_cast; ring
    rw [hc1]
    exact hxlt
  obtain ⟨cp, hcp⟩ : ∃ cp, train.route_geometry.get?
      (⌊((t - train.departure_seconds : ℤ) : ℚ) /
        ((sLast.arrival - train.departure_seconds : ℤ) : ℚ) *
        ((train.route_geometry.length : ℚ) - 1)⌋).toNat = some cp := by
    cases hg : train.route_geometry.get?
        (⌊((t - train.departure_seconds : ℤ) : ℚ) /
          ((sLast.arrival - train.departure_seconds : ℤ) : ℚ) *
          ((train.route_geometry.length : ℚ) - 1)⌋).toNat with
    | none => exact absurd (List.get?_eq_none.mp hg) (by omega)
    | some cp => exact ⟨cp, rfl⟩
  obtain ⟨np, hnp⟩ : ∃ np, train.route_geometry.get?
      (min (⌊((t - train.departure_seconds : ℤ) : ℚ) /
          ((sLast.arrival - train.departure_seconds : ℤ) : ℚ) *
          ((train.route_geometry.length : ℚ) - 1)⌋ + 1)
        ((train.route_geometry.length : ℤ) - 1)).toNat = some np := by
    have hmr := min_le_right (⌊((t - train.departure_seconds : ℤ) : ℚ) /
        ((sLast.arrival - train.departure_seconds : ℤ) : ℚ) *
        ((train.route_geometry.length : ℚ) - 1)⌋ + 1)
      ((train.route_geometry.length : ℤ) - 1)
    have hml := le_min (by omega : (0:ℤ) ≤ ⌊((t - train.departure_seconds : ℤ) : ℚ) /
        ((sLast.arrival - train.departure_seconds : ℤ) : ℚ) *
        ((train.route_geometry.length : ℚ) - 1)⌋ + 1)
      (by omega : (0:ℤ) ≤ (train.route_geometry.length : ℤ) - 1)
    cases hg : train.route_geometry.get?
        (min (⌊((t - train.departure_seconds : ℤ) : ℚ) /
            ((sLast.arrival - train.departure_seconds : ℤ) : ℚ) *
            ((train.route_geometry.length : ℚ) - 1)⌋ + 1)
          ((train.route_geometry.length : ℤ) - 1)).toNat with
    | none => exact absurd (List.get?_eq_none.mp hg) (by omega)
    | some np => exact ⟨np, rfl⟩
  have hcpD : train.route_geometry.getD
      (⌊((t - train.departure_seconds : ℤ) : ℚ) /
        ((sLast.arrival - train.departure_seconds : ℤ) : ℚ) *
        ((train.route_geometry.length : ℚ) - 1)⌋).toNat default = cp := by
    have hrw : train.route_geometry.getD
        (⌊((t - train.departure_seconds : ℤ) : ℚ) /
          ((sLast.arrival - train.departure_seconds : ℤ) : ℚ) *
          ((train.route_geometry.length : ℚ) - 1)⌋).toNat default =
        (train.route_geometry.get?
          (⌊((t - train.departure_seconds : ℤ) : ℚ) /
            ((sLast.arrival - train.departure_seconds : ℤ) : ℚ) *
            ((train.route_geometry.length : ℚ) - 1)⌋).toNat).getD default := rfl
    rw [hrw, hcp]
    rfl
  have hnpD : train.route_geometry.getD
      (min (⌊((t - train.departure_seconds : ℤ) : ℚ) /
          ((sLast.arrival - train.departure_seconds : ℤ) : ℚ) *
          ((train.route_geometry.length : ℚ) - 1)⌋ + 1)
        ((train.route_geometry.length : ℤ) - 1)).toNat default = np := by
    have hrw : train.route_geometry.getD
        (min (⌊((t - train.departure_seconds : ℤ) : ℚ) /
            ((sLast.arrival - train.departure_seconds : ℤ) : ℚ) *
            ((train.route_geometry.length : ℚ) - 1)⌋ + 1)
          ((train.route_geometry.length : ℤ) - 1)).toNat default =
        (train.route_geometry.get?
          (min (⌊((t - train.departure_seconds : ℤ) : ℚ) /
              ((sLast.arrival - train.departure_seconds : ℤ) : ℚ) *
              ((train.route_geometry.length : ℚ) - 1)⌋ + 1)
            ((train.route_geometry.length : ℤ) - 1)).toNat).getD default := rfl
    rw [hrw, hnp]
    rfl
  dsimp only
  rw [min_eq_right hq1.le, max_eq_right hq0.le]
  simp only [interpolateTrainPosition, he, Bool.false_eq_true, if_false, hlast, hfirst]
  rw [if_neg (by omega : ¬t - train.departure_seconds < 0),
    if_neg (by omega :
      ¬t - train.departure_seconds ≥ sLast.arrival - train.departure_seconds)]
  simp only [rat_floor_eq_floor, Int.cast_natCast]
  refine ⟨cp, np, _, hcp, hnp, rfl, rfl, rfl, ?_, ?_⟩
  · show (train.route_geometry.getD _ default).lat + _ = _
    rw [hcpD, hnpD]
  · show (train.route_geometry.getD _ default).lon + _ = _
    rw [hcpD, hnpD]

/-- C2 witness: the formula theorem applied to `witTrain` at 09:30:00
(34200 s), halfway through its 09:00–10:00 journey. -/
theorem interpolateTrainPosition_running_formula_witness :
    ∃ lowerPoint upperPoint s,
      (let progress : ℚ := max 0 (min 1
         (((34200 - 32400 : ℤ) : ℚ) / ((36000 - 32400 : ℤ) : ℚ)))
       let exactIndex : ℚ := progress * ((witTrain.route_geometry.length : ℚ) - 1)
       let lowerIndex : ℤ := ⌊exactIndex⌋
       let segmentFraction : ℚ := exactIndex - (lowerIndex : ℚ)
       witTrain.route_geometry.get? lowerIndex.toNat = some lowerPoint ∧
       witTrain.route_geometry.get?
         (min (lowerIndex + 1) ((witTrain.route_geometry.length : ℤ) - 1)).toNat =
           some upperPoint ∧
       interpolateTrainPosition witTrain 34200 = some s ∧
       s.status = .running ∧
       s.progress = some (((34200 - 32400 : ℤ) : ℚ) / ((36000 - 32400 : ℤ) : ℚ)) ∧
       s.lat = lowerPoint.lat + (upperPoint.lat - lowerPoint.lat) * segmentFraction ∧
       s.lon = lowerPoint.lon + (upperPoint.lon - lowerPoint.lon) * segmentFraction) :=
  interpolateTrainPosition_running_formula witTrain 34200
    { name := "Borivali", lat := 191/10, lon := 729/10, arrival := 36000 }
    { name := "Churchgate", lat := 19, lon := 728/10, arrival := 32400 }
    (by decide) (by decide) (by decide) (by decide) (by decide)

/-- C9 witness: the handler theorem applied to concrete stub backends. -/
theorem osrdSimulationCurrent_unset_id_500_witness :
    osrdSimulationCurrentHandler (fun _ => .error "unreached") (.error "unreached") none =
      { httpStatus := 500, success := false,
        error := some "ReferenceError: mumbaiTrains is not defined" } :=
  osrdSimulationCurrent_unset_id_500 (fun _ => .error "unreached") (.error "unreached")

end MumbaiSim
